import Mathlib

/-!
Shallow embedding of the content-extraction and chat core of the
social-analyzer repository (`utils/facebook_extractor.py`,
`utils/linkedin_extractor.py`, `utils/chatbot_manager.py`, `config.py`).

Python strings are modelled as Lean `String` (one `Char` per code point, so
Python `len`/slicing agree with `String.length`/`String.take`).  Python's
`x in s` substring test, `str.split()` (whitespace split) and
`str.splitlines()` are given explicit executable models below.  External
collaborators (the HTTP client, BeautifulSoup's text extraction, the
Selenium page driver, the langchain embedding/vector-store/LLM calls) are
abstracted as explicit environment records of (possibly fallible)
functions; everything written in the repository itself is translated
directly.
-/

namespace SocialAnalyzer

/-- Python substring test on `List Char`: `needle` occurs contiguously in
`hay`. -/
def subOf (needle : List Char) : List Char → Bool
  | [] => needle.isEmpty
  | c :: rest => needle.isPrefixOf (c :: rest) || subOf needle rest

/-- Python `needle in hay` for strings. -/
def pyIn (needle hay : String) : Bool :=
  subOf needle.data hay.data

/-- Characters treated as whitespace by Python `str.split()` / `str.strip()`
with no argument (ASCII whitespace; the rarely-relevant extra Unicode
whitespace of Python is not needed for any input in this development). -/
def pyIsSpace (c : Char) : Bool :=
  c = ' ' || c = '\t' || c = '\n' || c = '\r' || c = '\x0b' || c = '\x0c'

/-- Worker for `pySplit` over remaining characters, with the reversed
accumulator of the current token. -/
def pySplitAux : List Char → List Char → List String
  | [], acc => if acc.isEmpty then [] else [String.mk acc.reverse]
  | c :: rest, acc =>
    if pyIsSpace c then
      if acc.isEmpty then pySplitAux rest []
      else String.mk acc.reverse :: pySplitAux rest []
    else pySplitAux rest (c :: acc)

/-- Python `str.split()`: split on whitespace runs, discarding empty
pieces. -/
def pySplit (s : String) : List String :=
  pySplitAux s.data []

/-- Python `str.strip()`: drop leading and trailing whitespace. -/
def pyStrip (s : String) : String :=
  String.mk (((s.data.dropWhile fun c => pyIsSpace c).reverse.dropWhile
    fun c => pyIsSpace c).reverse)

/-- Python `str.lower()` (ASCII case folding, as `Char.toLower`). -/
def pyLower (s : String) : String :=
  String.mk (s.data.map Char.toLower)

/-- Python `s[:n]`: the first `n` code points. -/
def pyTake (s : String) (n : Nat) : String :=
  String.mk (s.data.take n)

/-- Worker for `pySplitOnNl`. -/
def pySplitOnNlAux : List Char → List Char → List String
  | [], acc => [String.mk acc.reverse]
  | '\n' :: rest, acc => String.mk acc.reverse :: pySplitOnNlAux rest []
  | c :: rest, acc => pySplitOnNlAux rest (c :: acc)

/-- Python `s.split('\n')`: split on every newline, keeping empty pieces
(so `"".split('\n') == ['']`). -/
def pySplitOnNl (s : String) : List String :=
  pySplitOnNlAux s.data []

/-- Worker for `pySplitOnTwoSpaces`. -/
def pySplitOnTwoSpacesAux : List Char → List Char → List String
  | [], acc => [String.mk acc.reverse]
  | ' ' :: ' ' :: rest, acc => String.mk acc.reverse :: pySplitOnTwoSpacesAux rest []
  | c :: rest, acc => pySplitOnTwoSpacesAux rest (c :: acc)

/-- Python `s.split("  ")`: split on each non-overlapping occurrence of two
spaces, scanning left to right, keeping empty pieces. -/
def pySplitOnTwoSpaces (s : String) : List String :=
  pySplitOnTwoSpacesAux s.data []

/-- Python `str.splitlines()` worker over the remaining characters and the
reversed accumulator of the current line. -/
def pySplitlinesAux : List Char → List Char → List String
  | [], acc => if acc.isEmpty then [] else [String.mk acc.reverse]
  | '\r' :: '\n' :: rest, acc => String.mk acc.reverse :: pySplitlinesAux rest []
  | '\r' :: rest, acc => String.mk acc.reverse :: pySplitlinesAux rest []
  | '\n' :: rest, acc => String.mk acc.reverse :: pySplitlinesAux rest []
  | c :: rest, acc => pySplitlinesAux rest (c :: acc)

/-- Python `str.splitlines()` (for the line terminators `\n`, `\r`,
`\r\n`): no trailing empty line for a terminal newline. -/
def pySplitlines (s : String) : List String :=
  pySplitlinesAux s.data []

/-- A Facebook post as collected by `FacebookExtractor._get_posts_from_page`:
the stripped element text.  (The wall-clock `timestamp` field the code also
stores is nondeterministic ambient data and is irrelevant to every claim,
so it is not modelled.) -/
structure FBPost where
  content : String
  deriving Repr, DecidableEq

/-- The exclusion vocabulary of `FacebookExtractor._is_valid_post`. -/
def fbExcluded : List String :=
  ["facebook", "login", "sign up", "menu", "navigation"]

/-- `FacebookExtractor._is_valid_post`. -/
def isValidPost (text : String) : Bool :=
  if text = "" || text.length < 50 then false
  else
    let textLower := pyLower text
    if fbExcluded.any fun phrase => pyIn phrase textLower then false
    else (pySplit text).length ≥ 5

/-- `FacebookExtractor._is_duplicate`: prefix-100 comparison of the
candidate against every already-collected post. -/
def isDuplicate (newPost : FBPost) (existingPosts : List FBPost) : Bool :=
  let newContent := pyTake newPost.content 100
  existingPosts.any fun existing => pyTake existing.content 100 == newContent

example : pyIn "abc" "xxabcy" = true := by decide
example : pyIn "abc" "ababy" = false := by decide
example : pySplit "  a b\tc  " = ["a", "b", "c"] := by decide
example : pyStrip "  ab c\n" = "ab c" := by decide
example : pySplitlines "a\nb\r\nc\r" = ["a", "b", "c"] := by decide
example : pySplitlines "\n" = [""] := by decide
example : pySplitlines "" = [] := by decide
example : pySplitOnNl "" = [""] := by decide
example : pySplitOnNl "a\nb" = ["a", "b"] := by decide
example : pySplitOnTwoSpaces "a   b    c" = ["a", " b", "", "c"] := by decide
example : pyLower "AbC" = "abc" := by decide
example : pyTake "abcdef" 3 = "abc" := by decide

/-- The page driver seen by `FacebookExtractor._extract_posts`, indexed by
the number of scroll-to-bottom actions performed so far: `heights k` is
`document.body.scrollHeight` after `k` scrolls, and `elementTexts k` is the
`element.text` of the rendered `//div[@role='article']` elements after `k`
scrolls.  (The fixed settle sleeps are real time, irrelevant to the loop's
logic.) -/
structure FBDriver where
  heights : Nat → Nat
  elementTexts : Nat → List String

/-- `FacebookExtractor._get_posts_from_page` at scroll step `step`: strip
each rendered element's text and keep those passing `_is_valid_post`. -/
def getPostsFromPage (d : FBDriver) (step : Nat) : List FBPost :=
  ((d.elementTexts step).map fun t => pyStrip t).filterMap fun text =>
    if isValidPost text then some { content := text } else none

/-- The inner `for post in current_posts` loop of `_extract_posts`:
append each current post that is not a duplicate of the accumulated list. -/
def appendNewPosts (posts : List FBPost) (currentPosts : List FBPost) : List FBPost :=
  currentPosts.foldl
    (fun acc post => if isDuplicate post acc then acc else acc ++ [post]) posts

/-- The `for i in range(max_scrolls)` loop of `_extract_posts`, with the
remaining iteration budget `fuel`, the number of scrolls already performed
`step`, the height reading `lastHeight` taken before this iteration's
scroll, and the accumulated `posts`.  Returns the final post list together
with the number of loop-body iterations executed. -/
def extractPostsLoop (d : FBDriver) : Nat → Nat → Nat → List FBPost → List FBPost × Nat
  | 0, _, _, posts => (posts, 0)
  | fuel + 1, step, lastHeight, posts =>
    let currentPosts := getPostsFromPage d step
    let posts := appendNewPosts posts currentPosts
    let newHeight := d.heights (step + 1)
    if newHeight = lastHeight then (posts, 1)
    else
      let rec_ := extractPostsLoop d fuel (step + 1) newHeight posts
      (rec_.1, rec_.2 + 1)

/-- `FacebookExtractor._extract_posts`, instrumented with the number of
loop iterations executed. -/
def extractPosts (d : FBDriver) (maxScrolls : Nat) : List FBPost × Nat :=
  extractPostsLoop d maxScrolls 0 (d.heights 0) []

/-- A driver whose page height stops changing after the first scroll
(`100, 200, 200, 200, …`) and which renders no posts. -/
def stagnantAfterOneDriver : FBDriver where
  heights := fun k => if k = 0 then 100 else 200
  elementTexts := fun _ => []

example : (extractPosts stagnantAfterOneDriver 3).2 = 2 := by decide
example : (extractPosts stagnantAfterOneDriver 5).2 = 2 := by decide
example : (extractPosts { stagnantAfterOneDriver with heights := fun k => 100 * (k + 1) } 3).2 = 3 := by decide

/-! ## Chatbot manager (`utils/chatbot_manager.py`) -/

/-- The configuration values of `config.py` consumed by the chatbot
manager (each a `os.getenv` lookup with a default, so an arbitrary
string). -/
structure Config where
  HUGGINGFACE_API_KEY : String
  HUGGINGFACE_DEFAULT_MODEL : String
  OLLAMA_BASE_URL : String
  OLLAMA_DEFAULT_MODEL : String
  deriving Repr, DecidableEq

/-- The generation-model handle returned by
`ChatbotManager.initialize_llm`: a langchain `Ollama` or `HuggingFaceHub`
object, identified by its model name and endpoint/credential arguments.
(The fixed numeric decoding parameters — temperature 0.7, top-p 0.9,
output-length cap 512 — are constants attached to every handle and play no
role in any claim.) -/
inductive LLM where
  | ollama (model : String) (baseUrl : String)
  | huggingFaceHub (repoId : String) (apiToken : String)
  deriving Repr, DecidableEq

/-- An opaque handle to a langchain embeddings object
(`HuggingFaceEmbeddings`). -/
structure Embeddings where
  handle : Nat
  deriving Repr, DecidableEq

/-- An opaque handle to a FAISS vector store. -/
structure VectorStore where
  handle : Nat
  deriving Repr, DecidableEq

/-- A `ConversationalRetrievalChain` as built by
`ConversationalRetrievalChain.from_llm`: the generation model, the
retriever view of the vector store (`as_retriever` with fixed `k = 3`),
and the `ConversationBufferMemory` dialogue history (question/answer
pairs), empty when freshly built. -/
structure Chain where
  llm : LLM
  retriever : VectorStore
  memory : List (String × String)
  deriving Repr, DecidableEq

/-- One value of the `conversation_chains` registry:
`{'chain': …, 'vectorstore': …, 'model_name': …, 'model_type': …}`. -/
structure ChainEntry where
  chain : Chain
  vectorstore : VectorStore
  model_name : Option String
  model_type : String
  deriving Repr, DecidableEq

/-- Python `dict` lookup on an association list. -/
def dictGet (k : String) : List (String × α) → Option α
  | [] => none
  | (k', v) :: rest => if k' = k then some v else dictGet k rest

/-- Python `dict` assignment `d[k] = v`: overwrite in place when the key
exists, append otherwise. -/
def dictInsert (k : String) (v : α) : List (String × α) → List (String × α)
  | [] => [(k, v)]
  | (k', v') :: rest =>
    if k' = k then (k, v) :: rest else (k', v') :: dictInsert k v rest

/-- The mutable state of a `ChatbotManager` instance. -/
structure ChatbotState where
  availableOllama : List String
  availableHuggingface : List String
  currentModel : Option String
  currentModelType : String
  conversationChains : List (String × ChainEntry)
  deriving Repr, DecidableEq

/-- `ChatbotManager.__init__`. -/
def ChatbotState.init : ChatbotState where
  availableOllama := []
  availableHuggingface := []
  currentModel := none
  currentModelType := "ollama"
  conversationChains := []

/-- Python's falsy-coalescing `model_name or default`: `None` and the
empty string both fall back to the default. -/
def pyOrDefault (modelName : Option String) (dflt : String) : String :=
  match modelName with
  | none => dflt
  | some s => if s = "" then dflt else s

/-- `ChatbotManager.initialize_llm`.  A Python exception is an
`Except.error` carrying the exception message; the state is unchanged on
every error path (the code raises before any assignment). -/
def initialize_llm (cfg : Config) (st : ChatbotState) (modelName : Option String)
    (modelType : String) : Except String (LLM × ChatbotState) :=
  if modelType = "ollama" then
    match st.availableOllama with
    | [] => .error "No Ollama models available"
    | first :: rest =>
      let modelToUse := pyOrDefault modelName cfg.OLLAMA_DEFAULT_MODEL
      let modelToUse :=
        if (first :: rest).contains modelToUse then modelToUse else first
      .ok (LLM.ollama modelToUse cfg.OLLAMA_BASE_URL,
        { st with currentModel := some modelToUse, currentModelType := "ollama" })
  else if modelType = "huggingface" then
    if cfg.HUGGINGFACE_API_KEY = "" then
      .error "Hugging Face API key not configured"
    else
      let modelToUse := pyOrDefault modelName cfg.HUGGINGFACE_DEFAULT_MODEL
      .ok (LLM.huggingFaceHub modelToUse cfg.HUGGINGFACE_API_KEY,
        { st with currentModel := some modelToUse, currentModelType := "huggingface" })
  else
    .error s!"Unsupported model type: {modelType}"

/-- The response dict returned by `chain.invoke`, reduced to the presence
or absence of its `"answer"` field. -/
structure ChainResponse where
  answer : Option String
  deriving Repr, DecidableEq

/-- The external langchain collaborators called by the chatbot manager:
the `HuggingFaceEmbeddings` constructor (may raise), `FAISS.from_documents`
(may raise), the `CharacterTextSplitter` chunking (total), and chain
invocation (may raise). -/
structure ChatbotEnv where
  config : Config
  getEmbeddings : Except String Embeddings
  faissFromDocuments : List String → Embeddings → Except String VectorStore
  splitText : String → List String
  invokeChain : Chain → String → Except String ChainResponse

/-- `ChatbotManager.create_conversation_chain`.  Returns the result of the
call (chain id, or the propagated exception) together with the state after
the call; on an exception the state captured so far is returned, matching
Python's in-place mutation under a propagating raise. -/
def create_conversation_chain (env : ChatbotEnv) (st : ChatbotState)
    (textData : String) (modelName : Option String) (modelType : String) :
    Except String String × ChatbotState :=
  let chunks := env.splitText textData
  let documents := chunks
  match env.getEmbeddings with
  | .error e => (.error e, st)
  | .ok embeddings =>
    match env.faissFromDocuments documents embeddings with
    | .error e => (.error e, st)
    | .ok vectorstore =>
      match initialize_llm env.config st modelName modelType with
      | .error e => (.error e, st)
      | .ok (llm, st1) =>
        let chain : Chain := { llm := llm, retriever := vectorstore, memory := [] }
        let nameOrDefault := pyOrDefault modelName "default"
        let chainId := s!"{modelType}_{nameOrDefault}"
        let entry : ChainEntry :=
          { chain := chain, vectorstore := vectorstore,
            model_name := modelName, model_type := modelType }
        (.ok chainId,
          { st1 with conversationChains := dictInsert chainId entry st1.conversationChains })

/-- `ChatbotManager.chat`. -/
def ChatbotState.chat (env : ChatbotEnv) (st : ChatbotState)
    (chainId question : String) : String :=
  match dictGet chainId st.conversationChains with
  | none => "Error: Conversation chain not found. Please extract data first."
  | some chainData =>
    match env.invokeChain chainData.chain question with
    | .error e => s!"Error: {e}"
    | .ok response => response.answer.getD "I couldn't generate a response."

/-- `ChatbotManager.clear_conversation`: on a known id, rebuild the chain
from a freshly initialized model, a fresh empty memory and the stored
vector store, overwrite only the entry's `'chain'` field, and return
`True`; an exception from `initialize_llm` is caught and yields `False`
with the state as mutated so far (no mutation precedes the raise). -/
def clear_conversation (cfg : Config) (st : ChatbotState) (chainId : String) :
    Bool × ChatbotState :=
  match dictGet chainId st.conversationChains with
  | some chainData =>
    match initialize_llm cfg st chainData.model_name chainData.model_type with
    | .error _ => (false, st)
    | .ok (llm, st1) =>
      let newChain : Chain :=
        { llm := llm, retriever := chainData.vectorstore, memory := [] }
      let newEntry : ChainEntry := { chainData with chain := newChain }
      let newChains := dictInsert chainId newEntry st1.conversationChains
      (true, { st1 with conversationChains := newChains })
  | none => (false, st)

/-! ## LinkedIn static extractor (`utils/linkedin_extractor.py`) -/

/-- Python `str.upper()` (ASCII case folding, as `Char.toUpper`). -/
def pyUpper (s : String) : String :=
  String.mk (s.data.map Char.toUpper)

/-- Python `'\n'.join(...)`. -/
def joinWithNl : List String → String
  | [] => ""
  | [s] => s
  | s :: rest => s ++ "\n" ++ joinWithNl (rest)

/-- The `requests.get` response, reduced to the fields the extractor
reads. -/
structure HttpResponse where
  status_code : Nat
  text : String
  deriving Repr, DecidableEq

/-- The external collaborators of `LinkedInExtractor.extract_data`:
`requests.get` (may raise, e.g. on timeout) and the BeautifulSoup stage
(parse, decompose `script/style/nav/header/footer`, `get_text`), which is
total on the fetched markup. -/
structure LinkedInEnv where
  fetch : String → Except String HttpResponse
  soupGetText : String → String

/-- The dict returned by `LinkedInExtractor.extract_data`; every key the
code may or may not set is an `Option` field, `none` meaning the key is
absent from the returned dict. -/
structure ExtractResult where
  error : Option String := none
  data_type : Option String := none
  url : Option String := none
  content : Option (List String) := none
  total_blocks : Option Nat := none
  model_used : Option String := none
  status : Option String := none
  deriving Repr, DecidableEq

/-- The mutable state of a `LinkedInExtractor` instance. -/
structure LinkedInState where
  extracted_data : Option ExtractResult
  conversation_chain_id : Option String
  deriving Repr, DecidableEq

/-- `LinkedInExtractor.__init__`. -/
def LinkedInState.init : LinkedInState where
  extracted_data := none
  conversation_chain_id := none

/-- The whitespace-normalisation stage of `extract_data`:
`lines = (line.strip() for line in text.splitlines())`,
`chunks = (phrase.strip() for line in lines for phrase in line.split("  "))`,
`clean_text = '\n'.join(chunk for chunk in chunks if chunk)`. -/
def lkCleanText (text : String) : String :=
  let lines := (pySplitlines text).map fun line => pyStrip line
  let chunks :=
    (lines.map fun line => (pySplitOnTwoSpaces line).map fun phrase => pyStrip phrase).flatten
  joinWithNl (chunks.filter fun chunk => chunk ≠ "")

/-- The paragraph stage of `extract_data`:
`[p.strip() for p in clean_text.split('\n') if len(p.strip()) > 30]`. -/
def lkParagraphs (cleanText : String) : List String :=
  ((pySplitOnNl cleanText).filter fun p => 30 < (pyStrip p).length).map
    fun p => pyStrip p

/-- `LinkedInExtractor._is_meaningful_content`. -/
def isMeaningfulContent (text : String) : Bool :=
  let excluded := ["cookie", "privacy", "terms", "sign in", "login", "linkedin", "©"]
  let textLower := pyLower text
  if textLower.length < 20 then false
  else if excluded.any fun pattern => pyIn pattern textLower then false
  else true

/-- The meaningful-content list computed by `extract_data` from the
BeautifulSoup text of a fetched page. -/
def lkMeaningfulContent (text : String) : List String :=
  (lkParagraphs (lkCleanText text)).filter fun p => isMeaningfulContent p

/-- The block renderer of `LinkedInExtractor._prepare_for_chatbot`
(`for i, content in enumerate(data['content'], 1)`). -/
def lkRenderBlocks : Nat → List String → String
  | _, [] => ""
  | i, c :: rest =>
    s!"\nBlock {i}:\n{c}\n" ++ String.mk (List.replicate 40 '-') ++ "\n" ++
      lkRenderBlocks (i + 1) rest

/-- `LinkedInExtractor._prepare_for_chatbot`.  Only ever invoked on the
success-shaped result where every read key is present; an absent key reads
as its type's empty default here. -/
def lkPrepareForChatbot (data : ExtractResult) : String :=
  let dataTypeStr := pyUpper (data.data_type.getD "")
  let urlStr := data.url.getD ""
  let totalBlocksStr := toString (data.total_blocks.getD 0)
  let modelUsedStr := data.model_used.getD ""
  let text := s!"LINKEDIN {dataTypeStr} DATA\n\n"
  let text := text ++ s!"URL: {urlStr}\n"
  let text := text ++ s!"Total Content Blocks: {totalBlocksStr}\n"
  let text := text ++ s!"Model: {modelUsedStr}\n\n"
  let text := text ++ "EXTRACTED CONTENT:\n" ++ String.mk (List.replicate 50 '=') ++ "\n"
  text ++ lkRenderBlocks 1 (data.content.getD [])

/-- `LinkedInExtractor.extract_data`, threading the extractor's own state
and the global chatbot manager's state. -/
def extract_data (lenv : LinkedInEnv) (cenv : ChatbotEnv)
    (lst : LinkedInState) (cst : ChatbotState) (url : String)
    (dataType : String) (modelName : String) (modelType : String) :
    ExtractResult × LinkedInState × ChatbotState :=
  match lenv.fetch url with
  | .error e => ({ error := some s!"Extraction failed: {e}" }, lst, cst)
  | .ok response =>
    if response.status_code ≠ 200 then
      ({ error := some s!"Failed to access page (Status: {response.status_code})" },
        lst, cst)
    else
      let text := lenv.soupGetText response.text
      let meaningfulContent := lkMeaningfulContent text
      if meaningfulContent.isEmpty then
        ({ error := some "No meaningful content found" }, lst, cst)
      else
        let result : ExtractResult :=
          { data_type := some dataType, url := some url,
            content := some (meaningfulContent.take 10),
            total_blocks := some meaningfulContent.length,
            model_used := some s!"{modelType}: {modelName}",
            status := some "success" }
        let lst1 := { lst with extracted_data := some result }
        let chatbotText := lkPrepareForChatbot result
        match create_conversation_chain cenv cst chatbotText (some modelName) modelType with
        | (.error e, cst1) =>
          ({ error := some s!"Extraction failed: {e}" }, lst1, cst1)
        | (.ok chainId, cst1) =>
          (result, { lst1 with conversation_chain_id := some chainId }, cst1)

/-! ## Concrete environments and states used to instantiate the theorems -/

/-- The default configuration values of `config.py` when no environment
variable overrides them. -/
def demoConfig : Config where
  HUGGINGFACE_API_KEY := ""
  HUGGINGFACE_DEFAULT_MODEL := "mistralai/Mistral-7B-Instruct-v0.1"
  OLLAMA_BASE_URL := "http://localhost:11434"
  OLLAMA_DEFAULT_MODEL := "llama2"

/-- A chatbot environment whose external langchain calls all succeed. -/
def trivialChatbotEnv : ChatbotEnv where
  config := demoConfig
  getEmbeddings := .ok { handle := 0 }
  faissFromDocuments := fun _ _ => .ok { handle := 0 }
  splitText := fun t => [t]
  invokeChain := fun _ _ => .ok { answer := none }

/-- A chatbot environment whose embeddings constructor raises. -/
def failingEmbeddingsEnv : ChatbotEnv :=
  { trivialChatbotEnv with getEmbeddings := .error "embeddings failed" }

/-- A vector store handle for concrete scenarios. -/
def demoVectorStore : VectorStore := { handle := 7 }

/-- A stored chain for concrete scenarios. -/
def demoChain : Chain where
  llm := .ollama "llama2" "http://localhost:11434"
  retriever := demoVectorStore
  memory := [("q0", "a0")]

/-- A registry entry for concrete scenarios. -/
def demoEntry : ChainEntry where
  chain := demoChain
  vectorstore := demoVectorStore
  model_name := some "llama2"
  model_type := "ollama"

/-- A state holding one session whose Ollama model list has since become
empty (e.g. a later `check_ollama_status` saw a 200 response advertising
no models). -/
def strandedState : ChatbotState :=
  { ChatbotState.init with
      conversationChains := [("ollama_llama2", demoEntry)] }

/-- Like `strandedState`, but with the entry's model still advertised. -/
def readyState : ChatbotState :=
  { strandedState with availableOllama := ["llama2"] }

/-- A LinkedIn environment whose fetch always yields HTTP 404. -/
def lkEnv404 : LinkedInEnv where
  fetch := fun _ => .ok { status_code := 404, text := "" }
  soupGetText := fun t => t

/-- A LinkedIn environment whose fetch succeeds with a page whose whole
text is one short line. -/
def lkEnvShort : LinkedInEnv where
  fetch := fun _ => .ok { status_code := 200, text := "short text" }
  soupGetText := fun t => t

/-- A long single-paragraph page text that passes the length gate but
contains the excluded site-name term "linkedin". -/
def boilerplateText : String :=
  "this linkedin page paragraph is long enough to pass the length gate"

/-- A LinkedIn environment fetching a page whose single paragraph is long
enough for the length gate but is rejected by the boilerplate filter. -/
def lkEnvBoilerplate : LinkedInEnv where
  fetch := fun _ => .ok { status_code := 200, text := boilerplateText }
  soupGetText := fun t => t

/-! ## Helper lemmas -/

/-- The loop of `_extract_posts` never executes more iterations than its
remaining budget. -/
theorem extractPostsLoop_count_le (d : FBDriver) :
    ∀ (fuel step lastHeight : Nat) (posts : List FBPost),
      (extractPostsLoop d fuel step lastHeight posts).2 ≤ fuel := by
  intro fuel
  induction fuel with
  | zero =>
    intro step lastHeight posts
    simp [extractPostsLoop]
  | succ f ih =>
    intro step lastHeight posts
    simp only [extractPostsLoop]
    split
    · exact Nat.succ_le_succ (Nat.zero_le f)
    · exact Nat.succ_le_succ (ih _ _ _)

/-- If the height reading after scroll `step + j + 1` repeats the reading
after scroll `step + j`, the loop started at scroll step `step` (with the
matching height reading) stops within `j + 1` iterations. -/
theorem extractPostsLoop_count_stop (d : FBDriver) :
    ∀ (fuel j step : Nat) (posts : List FBPost), j < fuel →
      d.heights (step + j + 1) = d.heights (step + j) →
      (extractPostsLoop d fuel step (d.heights step) posts).2 ≤ j + 1 := by
  intro fuel
  induction fuel with
  | zero =>
    intro j step posts hj _
    exact absurd hj (Nat.not_lt_zero j)
  | succ f ih =>
    intro j step posts hj hstop
    simp only [extractPostsLoop]
    split
    · exact Nat.succ_le_succ (Nat.zero_le j)
    · rename_i hne
      match j, hstop with
      | 0, hstop => exact absurd (by simpa using hstop) hne
      | j' + 1, hstop =>
        have hstop' : d.heights (step + 1 + j' + 1) = d.heights (step + 1 + j') := by
          have e1 : step + 1 + j' + 1 = step + (j' + 1) + 1 := by omega
          have e2 : step + 1 + j' = step + (j' + 1) := by omega
          rw [e1, e2]
          exact hstop
        exact Nat.succ_le_succ
          (ih j' (step + 1) _ (Nat.lt_of_succ_lt_succ hj) hstop')

/-- A successful `initialize_llm` never touches the session registry. -/
theorem initialize_llm_preserves_chains (cfg : Config) (st : ChatbotState)
    (modelName : Option String) (modelType : String) (llm : LLM)
    (st1 : ChatbotState)
    (h : initialize_llm cfg st modelName modelType = .ok (llm, st1)) :
    st1.conversationChains = st.conversationChains := by
  unfold initialize_llm at h
  split at h
  · split at h
    · exact absurd h (by simp)
    · simp only [Except.ok.injEq, Prod.mk.injEq] at h
      rw [← h.2]
  · split at h
    · split at h
      · exact absurd h (by simp)
      · simp only [Except.ok.injEq, Prod.mk.injEq] at h
        rw [← h.2]
    · exact absurd h (by simp)

/-- Looking up a key just written by `dictInsert` yields the written
value. -/
theorem dictGet_dictInsert_self (k : String) (v : α) :
    ∀ d : List (String × α), dictGet k (dictInsert k v d) = some v := by
  intro d
  induction d with
  | nil => simp [dictInsert, dictGet]
  | cons hd tl ih =>
    simp only [dictInsert]
    split
    · simp [dictGet]
    · rename_i hne
      simpa [dictGet, hne] using ih

/-! ## Claim theorems -/

/-- C1: the feed (scroll) extraction loop over an abstract page driver runs
at most `maxScrolls` iterations and stops as soon as a height reading after
a scroll repeats the reading before it; for `max_scrolls = 3` with a page
whose height stops changing after iteration 1, the loop body runs exactly
2 iterations, not 3. -/
theorem feed_scroll_loop_bounded_and_stops_on_stagnation :
    (∀ (d : FBDriver) (maxScrolls : Nat),
        (extractPosts d maxScrolls).2 ≤ maxScrolls) ∧
    (∀ (d : FBDriver) (maxScrolls j : Nat), j < maxScrolls →
        d.heights (j + 1) = d.heights j →
        (extractPosts d maxScrolls).2 ≤ j + 1) ∧
    (extractPosts stagnantAfterOneDriver 3).2 = 2 := by
  refine ⟨?_, ?_, by decide⟩
  · intro d maxScrolls
    exact extractPostsLoop_count_le d maxScrolls 0 (d.heights 0) []
  · intro d maxScrolls j hj hstop
    exact extractPostsLoop_count_stop d maxScrolls j 0 [] hj (by simpa using hstop)

/-- C1 witness: a concrete driver whose second height reading repeats the
first makes the loop stop within 2 iterations even with budget 5. -/
theorem feed_scroll_loop_witness :
    (extractPosts stagnantAfterOneDriver 5).2 ≤ 2 :=
  feed_scroll_loop_bounded_and_stops_on_stagnation.2.1
    stagnantAfterOneDriver 5 1 (by decide) (by decide)

/-- A 100-character prefix shared by two distinct posts. -/
def sharedPrefix100 : String := String.mk (List.replicate 100 'a')

/-- C7: `_is_duplicate` answers true exactly when some already-collected
post shares the candidate's first 100 characters; in particular two posts
with the same 100-character prefix but different tails are flagged as
duplicates. -/
theorem is_duplicate_iff_shared_prefix100 :
    (∀ (newPost : FBPost) (existingPosts : List FBPost),
        isDuplicate newPost existingPosts = true ↔
          ∃ existing ∈ existingPosts,
            pyTake existing.content 100 = pyTake newPost.content 100) ∧
    (sharedPrefix100 ++ "X" ≠ sharedPrefix100 ++ "Y" ∧
      isDuplicate { content := sharedPrefix100 ++ "X" }
        [{ content := sharedPrefix100 ++ "Y" }] = true) := by
  refine ⟨?_, by decide, by decide⟩
  intro newPost existingPosts
  simp [isDuplicate, List.any_eq_true, beq_iff_eq]

/-- A long, many-word text containing the word "cookie" and none of the
phrases `_is_valid_post` actually excludes. -/
def cookieText : String :=
  "cookie recipes are wonderful and these delicious treats make everyone happy"

/-- C8 counterexample: the feed validity check does not exclude "cookie"
(nor "privacy", "terms", "sign in"): a long feed fragment containing
"cookie" is accepted, contradicting the claimed exclusion vocabulary. -/
theorem is_valid_post_accepts_cookie_text :
    pyIn "cookie" (pyLower cookieText) = true ∧
    isValidPost cookieText = true := by decide

/-- C8 (amended): the feed validity check returns false whenever the text
is shorter than 50 characters, or has fewer than 5 whitespace-separated
words, or its lowercasing contains one of the phrases "facebook", "login",
"sign up", "menu", "navigation" (the actual exclusion vocabulary, which
does not contain "cookie", "privacy", "terms" or "sign in"). -/
theorem is_valid_post_rejections (text : String) :
    (text.length < 50 → isValidPost text = false) ∧
    ((pySplit text).length < 5 → isValidPost text = false) ∧
    (∀ phrase ∈ fbExcluded, pyIn phrase (pyLower text) = true →
      isValidPost text = false) := by
  refine ⟨fun h => ?_, fun h => ?_, fun phrase hmem hin => ?_⟩
  · simp [isValidPost, h]
  · simp only [isValidPost]
    split
    · rfl
    · split
      · rfl
      · exact decide_eq_false (by omega)
  · simp only [isValidPost]
    split
    · rfl
    · split
      · rfl
      · rename_i hany
        exfalso
        apply hany
        rw [List.any_eq_true]
        refine ⟨phrase, hmem, ?_⟩
        simpa using hin

/-- C8 witness: the rejection cases of `is_valid_post_rejections` at
concrete inputs. -/
theorem is_valid_post_rejections_witness :
    isValidPost "short" = false ∧
    isValidPost "facebook navigation menu login facebook navigation menu login" = false :=
  ⟨(is_valid_post_rejections "short").1 (by decide),
    (is_valid_post_rejections
        "facebook navigation menu login facebook navigation menu login").2.2
      "facebook" (by decide) (by decide)⟩

/-- A trimmed line of exactly 30 characters. -/
def thirtyAs : String := String.mk (List.replicate 30 'a')

/-- A trimmed line of 31 characters. -/
def thirtyOneAs : String := String.mk (List.replicate 31 'a')

/-- C6 counterexample: a line whose trimmed length is exactly 30 — at
least 30 characters, so the claim says it is retained — is dropped by the
paragraph gate (the code keeps only lines strictly longer than 30). -/
theorem lk_paragraph_gate_drops_len30 :
    (pyStrip thirtyAs).length = 30 ∧ lkParagraphs thirtyAs = [] := by decide

/-- C6 (amended): in static extraction a line survives to the candidate
paragraph list exactly when its trimmed length exceeds 30 characters
(lines of trimmed length ≤ 30, including exactly 30, are dropped). -/
theorem lk_paragraph_gate (cleanText p : String) :
    p ∈ lkParagraphs cleanText ↔
      ∃ line ∈ pySplitOnNl cleanText,
        30 < (pyStrip line).length ∧ p = pyStrip line := by
  simp only [lkParagraphs, List.mem_map, List.mem_filter]
  constructor
  · rintro ⟨line, ⟨hmem, hlen⟩, rfl⟩
    exact ⟨line, hmem, by simpa using hlen, rfl⟩
  · rintro ⟨line, hmem, hlen, rfl⟩
    exact ⟨line, ⟨hmem, by simpa using hlen⟩, rfl⟩

/-- C6 witness: a 31-character line is retained by the paragraph gate. -/
theorem lk_paragraph_gate_witness :
    pyStrip thirtyOneAs ∈ lkParagraphs thirtyOneAs :=
  (lk_paragraph_gate thirtyOneAs (pyStrip thirtyOneAs)).mpr
    ⟨thirtyOneAs, by decide, by decide, rfl⟩

/-- C2: Ollama initialization with a non-empty advertised list silently
substitutes the first advertised model when the requested name — after
Python's falsy coalescing `model_name or default`, so the configured
default when the request is `None` or empty — is not advertised,
recording the resolved name as the current model; with an empty
advertised list it fails with an error. -/
theorem ollama_init_fallback_and_empty_failure :
    (∀ (cfg : Config) (st : ChatbotState) (modelName : Option String)
        (first : String) (rest : List String),
        st.availableOllama = first :: rest →
        pyOrDefault modelName cfg.OLLAMA_DEFAULT_MODEL ∉ st.availableOllama →
        initialize_llm cfg st modelName "ollama" =
          .ok (LLM.ollama first cfg.OLLAMA_BASE_URL,
            { st with currentModel := some first, currentModelType := "ollama" })) ∧
    (∀ (cfg : Config) (st : ChatbotState) (modelName : Option String),
        st.availableOllama = [] →
        initialize_llm cfg st modelName "ollama" =
          .error "No Ollama models available") := by
  constructor
  · intro cfg st modelName first rest hav hnotmem
    rw [hav] at hnotmem
    unfold initialize_llm
    rw [if_pos rfl, hav]
    have hc : (first :: rest).contains (pyOrDefault modelName cfg.OLLAMA_DEFAULT_MODEL) = false := by
      simpa using hnotmem
    simp only [hc]
    rfl
  · intro cfg st modelName hav
    unfold initialize_llm
    rw [if_pos rfl, hav]

/-- A manager state advertising one Ollama model that differs from the
default requested name. -/
def fallbackState : ChatbotState :=
  { ChatbotState.init with availableOllama := ["mistral"] }

/-- C2 witness: requesting no model (and, separately, the falsy empty
string) with default `llama2` against an advertised list `["mistral"]`
resolves to `mistral`; an empty advertised list errors. -/
theorem ollama_init_witness :
    initialize_llm demoConfig fallbackState none "ollama" =
      .ok (LLM.ollama "mistral" "http://localhost:11434",
        { fallbackState with
            currentModel := some "mistral", currentModelType := "ollama" }) ∧
    initialize_llm demoConfig fallbackState (some "") "ollama" =
      .ok (LLM.ollama "mistral" "http://localhost:11434",
        { fallbackState with
            currentModel := some "mistral", currentModelType := "ollama" }) ∧
    initialize_llm demoConfig ChatbotState.init none "ollama" =
      .error "No Ollama models available" :=
  ⟨ollama_init_fallback_and_empty_failure.1 demoConfig fallbackState none
      "mistral" [] rfl (by decide),
    ollama_init_fallback_and_empty_failure.1 demoConfig fallbackState (some "")
      "mistral" [] rfl (by decide),
    ollama_init_fallback_and_empty_failure.2 demoConfig ChatbotState.init none rfl⟩

/-- C3: session creation is atomic — a failure of the embeddings
constructor, the vector-store build or the model initialization is
propagated unchanged and leaves the whole manager state (in particular the
`conversation_chains` registry) untouched; on success the registry gains
exactly the new entry. -/
theorem session_create_atomic :
    (∀ (env : ChatbotEnv) (st : ChatbotState) (textData : String)
        (modelName : Option String) (modelType : String) (e : String),
        env.getEmbeddings = .error e →
        create_conversation_chain env st textData modelName modelType = (.error e, st)) ∧
    (∀ (env : ChatbotEnv) (st : ChatbotState) (textData : String)
        (modelName : Option String) (modelType : String)
        (emb : Embeddings) (e : String),
        env.getEmbeddings = .ok emb →
        env.faissFromDocuments (env.splitText textData) emb = .error e →
        create_conversation_chain env st textData modelName modelType = (.error e, st)) ∧
    (∀ (env : ChatbotEnv) (st : ChatbotState) (textData : String)
        (modelName : Option String) (modelType : String)
        (emb : Embeddings) (vs : VectorStore) (e : String),
        env.getEmbeddings = .ok emb →
        env.faissFromDocuments (env.splitText textData) emb = .ok vs →
        initialize_llm env.config st modelName modelType = .error e →
        create_conversation_chain env st textData modelName modelType = (.error e, st)) ∧
    (∀ (env : ChatbotEnv) (st : ChatbotState) (textData : String)
        (modelName : Option String) (modelType : String)
        (chainId : String) (st' : ChatbotState),
        create_conversation_chain env st textData modelName modelType =
          (.ok chainId, st') →
        ∃ entry : ChainEntry,
          st'.conversationChains = dictInsert chainId entry st.conversationChains ∧
          entry.model_name = modelName ∧ entry.model_type = modelType) := by
  refine ⟨?_, ?_, ?_, ?_⟩
  · intro env st textData modelName modelType e h
    simp only [create_conversation_chain, h]
  · intro env st textData modelName modelType emb e hemb hfaiss
    simp only [create_conversation_chain, hemb, hfaiss]
  · intro env st textData modelName modelType emb vs e hemb hfaiss hinit
    simp only [create_conversation_chain, hemb, hfaiss, hinit]
  · intro env st textData modelName modelType chainId st' h
    simp only [create_conversation_chain] at h
    split at h
    · exact absurd h (by simp)
    · split at h
      · exact absurd h (by simp)
      · split at h
        · exact absurd h (by simp)
        · rename_i embS emb hembq vsS vstore hfaissq initS llm st1 hinit
          simp only [Prod.mk.injEq, Except.ok.injEq] at h
          obtain ⟨hid, hst⟩ := h
          refine ⟨⟨⟨llm, vstore, []⟩, vstore, modelName, modelType⟩, ?_, rfl, rfl⟩
          rw [← hst, ← hid]
          simp [initialize_llm_preserves_chains _ _ _ _ _ _ hinit]

/-- C3 witness: a failing embeddings build and a failing model
initialization each abort creation with the state untouched, and a fully
successful creation inserts exactly one entry for the computed id. -/
theorem session_create_atomic_witness :
    create_conversation_chain failingEmbeddingsEnv ChatbotState.init "text"
        (some "llama2") "ollama" = (.error "embeddings failed", ChatbotState.init) ∧
    create_conversation_chain trivialChatbotEnv ChatbotState.init "text"
        (some "llama2") "ollama" =
      (.error "No Ollama models available", ChatbotState.init) ∧
    ∃ entry : ChainEntry,
      (create_conversation_chain trivialChatbotEnv readyState "text"
          (some "llama2") "ollama").2.conversationChains =
        dictInsert "ollama_llama2" entry readyState.conversationChains ∧
      entry.model_name = some "llama2" ∧ entry.model_type = "ollama" :=
  ⟨session_create_atomic.1 failingEmbeddingsEnv ChatbotState.init "text"
      (some "llama2") "ollama" "embeddings failed" rfl,
    session_create_atomic.2.2.1 trivialChatbotEnv ChatbotState.init "text"
      (some "llama2") "ollama" { handle := 0 } { handle := 0 }
      "No Ollama models available" rfl rfl rfl,
    session_create_atomic.2.2.2 trivialChatbotEnv readyState "text"
      (some "llama2") "ollama" "ollama_llama2"
      (create_conversation_chain trivialChatbotEnv readyState "text"
        (some "llama2") "ollama").2 rfl⟩

/-- C9: chat with an unknown session id returns the fixed sentinel string
(and, being a total function, raises nothing); with a known id the stored
chain is invoked and its answer returned, the generic fallback standing in
when the response has no answer field. -/
theorem chat_sentinel_and_answer :
    (∀ (env : ChatbotEnv) (st : ChatbotState) (chainId question : String),
        dictGet chainId st.conversationChains = none →
        ChatbotState.chat env st chainId question =
          "Error: Conversation chain not found. Please extract data first.") ∧
    (∀ (env : ChatbotEnv) (st : ChatbotState) (chainId question : String)
        (chainData : ChainEntry) (response : ChainResponse),
        dictGet chainId st.conversationChains = some chainData →
        env.invokeChain chainData.chain question = .ok response →
        ChatbotState.chat env st chainId question =
          response.answer.getD "I couldn't generate a response.") := by
  constructor
  · intro env st chainId question h
    simp only [ChatbotState.chat, h]
  · intro env st chainId question chainData response h hinv
    simp only [ChatbotState.chat, h, hinv]

/-- C9 witness: chat against the empty registry yields the sentinel; chat
against a stored session whose backend response has no answer field yields
the generic fallback. -/
theorem chat_sentinel_witness :
    ChatbotState.chat trivialChatbotEnv ChatbotState.init "ollama_llama2" "hi" =
      "Error: Conversation chain not found. Please extract data first." ∧
    ChatbotState.chat trivialChatbotEnv readyState "ollama_llama2" "hi" =
      "I couldn't generate a response." :=
  ⟨chat_sentinel_and_answer.1 trivialChatbotEnv ChatbotState.init
      "ollama_llama2" "hi" rfl,
    chat_sentinel_and_answer.2 trivialChatbotEnv readyState "ollama_llama2" "hi"
      demoEntry { answer := none } rfl rfl⟩

/-- C10 counterexample: a session id that is present in the registry on
which `clear_conversation` nevertheless returns `False` — the stored model
type is `ollama` but the advertised Ollama list has become empty, so the
model rebuild raises and the handler returns `False`. -/
theorem clear_conversation_false_on_present_id :
    dictGet "ollama_llama2" strandedState.conversationChains = some demoEntry ∧
    clear_conversation demoConfig strandedState "ollama_llama2" =
      (false, strandedState) :=
  ⟨rfl, rfl⟩

/-- C10 (amended): for a session id present in the registry, when
re-initializing the entry's stored model succeeds, `clear_conversation`
replaces only the entry's chain — fresh empty history, the exact same
vector store, all other entry fields unchanged — and returns true; when
the re-initialization fails it returns false with the state unchanged; for
an absent id it returns false with the state unchanged. -/
theorem clear_conversation_behaviour :
    (∀ (cfg : Config) (st : ChatbotState) (chainId : String)
        (chainData : ChainEntry) (llm : LLM) (st1 : ChatbotState),
        dictGet chainId st.conversationChains = some chainData →
        initialize_llm cfg st chainData.model_name chainData.model_type =
          .ok (llm, st1) →
        (clear_conversation cfg st chainId).1 = true ∧
        dictGet chainId
            (clear_conversation cfg st chainId).2.conversationChains =
          some { chain := { llm := llm, retriever := chainData.vectorstore,
                            memory := [] },
                 vectorstore := chainData.vectorstore,
                 model_name := chainData.model_name,
                 model_type := chainData.model_type }) ∧
    (∀ (cfg : Config) (st : ChatbotState) (chainId : String)
        (chainData : ChainEntry) (e : String),
        dictGet chainId st.conversationChains = some chainData →
        initialize_llm cfg st chainData.model_name chainData.model_type =
          .error e →
        clear_conversation cfg st chainId = (false, st)) ∧
    (∀ (cfg : Config) (st : ChatbotState) (chainId : String),
        dictGet chainId st.conversationChains = none →
        clear_conversation cfg st chainId = (false, st)) := by
  refine ⟨?_, ?_, ?_⟩
  · intro cfg st chainId chainData llm st1 hget hinit
    simp only [clear_conversation, hget, hinit]
    exact ⟨trivial, dictGet_dictInsert_self chainId _ _⟩
  · intro cfg st chainId chainData e hget hinit
    simp only [clear_conversation, hget, hinit]
  · intro cfg st chainId hget
    simp only [clear_conversation, hget]

/-- C10 witness: clearing a present session whose model is still
advertised returns true and stores a rebuilt chain with empty history over
the same vector store and unchanged entry metadata. -/
theorem clear_conversation_witness :
    (clear_conversation demoConfig readyState "ollama_llama2").1 = true ∧
    dictGet "ollama_llama2"
        (clear_conversation demoConfig readyState "ollama_llama2").2.conversationChains =
      some { chain := { llm := .ollama "llama2" "http://localhost:11434",
                        retriever := demoVectorStore, memory := [] },
             vectorstore := demoVectorStore, model_name := some "llama2",
             model_type := "ollama" } :=
  clear_conversation_behaviour.1 demoConfig readyState "ollama_llama2" demoEntry
    (.ollama "llama2" "http://localhost:11434")
    { readyState with currentModel := some "llama2", currentModelType := "ollama" }
    rfl rfl

/-- C4 counterexample: a static extraction hitting HTTP 404 returns a dict
with no `status` key at all — `status` is not the error value of the
status enum — while the error message does embed the code. -/
theorem lk_404_no_status_field :
    (extract_data lkEnv404 trivialChatbotEnv LinkedInState.init ChatbotState.init
        "https://example.com" "profile" "llama2" "ollama").1.status = none ∧
    (extract_data lkEnv404 trivialChatbotEnv LinkedInState.init ChatbotState.init
        "https://example.com" "profile" "llama2" "ollama").1.error =
      some "Failed to access page (Status: 404)" := by
  exact ⟨rfl, rfl⟩

/-- C4 (amended): for every URL whose fetch returns a non-200 status, the
static extractor returns a dict whose only key is an error message
embedding the HTTP status code (no `status` key is set), and both the
extractor state (its chain id) and the chatbot manager state (the session
registry) are returned unchanged. -/
theorem lk_non200_error_shape (lenv : LinkedInEnv) (cenv : ChatbotEnv)
    (lst : LinkedInState) (cst : ChatbotState)
    (url dataType modelName modelType : String) (response : HttpResponse)
    (hfetch : lenv.fetch url = .ok response)
    (hne : response.status_code ≠ 200) :
    extract_data lenv cenv lst cst url dataType modelName modelType =
      ({ error := some s!"Failed to access page (Status: {response.status_code})" },
        lst, cst) := by
  unfold extract_data
  rw [hfetch]
  simp [hne]

/-- C4 witness: the 404 scenario instantiating `lk_non200_error_shape`. -/
theorem lk_non200_witness :
    extract_data lkEnv404 trivialChatbotEnv LinkedInState.init ChatbotState.init
        "https://example.com" "profile" "llama2" "ollama" =
      ({ error := some "Failed to access page (Status: 404)" },
        LinkedInState.init, ChatbotState.init) :=
  lk_non200_error_shape lkEnv404 trivialChatbotEnv LinkedInState.init
    ChatbotState.init "https://example.com" "profile" "llama2" "ollama"
    { status_code := 404, text := "" } rfl (by decide)

/-- C5 counterexample: a 200-fetched page whose every trimmed paragraph is
shorter than 30 characters yields a dict with no `status` key and the
capitalized message `"No meaningful content found"`, not the claimed
`{status: error, error: "no meaningful content found"}`. -/
theorem lk_short_page_counterexample :
    (∀ p ∈ pySplitOnNl (lkCleanText "short text"), (pyStrip p).length < 30) ∧
    (extract_data lkEnvShort trivialChatbotEnv LinkedInState.init ChatbotState.init
        "https://example.com" "profile" "llama2" "ollama").1.status = none ∧
    (extract_data lkEnvShort trivialChatbotEnv LinkedInState.init ChatbotState.init
        "https://example.com" "profile" "llama2" "ollama").1.error =
      some "No meaningful content found" ∧
    (extract_data lkEnvShort trivialChatbotEnv LinkedInState.init ChatbotState.init
        "https://example.com" "profile" "llama2" "ollama").1.error ≠
      some "no meaningful content found" := by
  refine ⟨by decide, rfl, rfl, by decide⟩

/-- C5 (amended): for every 200-fetched page whose meaningful-content set
is empty, the static extractor returns a dict whose only key is
`error = "No meaningful content found"` (capitalized, no `status` key),
leaving both states unchanged; and every page whose every paragraph line
has trimmed length below 30 characters has an empty meaningful-content
set. -/
theorem lk_empty_meaningful_error :
    (∀ (lenv : LinkedInEnv) (cenv : ChatbotEnv) (lst : LinkedInState)
        (cst : ChatbotState) (url dataType modelName modelType : String)
        (response : HttpResponse),
        lenv.fetch url = .ok response →
        response.status_code = 200 →
        lkMeaningfulContent (lenv.soupGetText response.text) = [] →
        extract_data lenv cenv lst cst url dataType modelName modelType =
          ({ error := some "No meaningful content found" }, lst, cst)) ∧
    (∀ text : String,
        (∀ p ∈ pySplitOnNl (lkCleanText text), (pyStrip p).length < 30) →
        lkMeaningfulContent text = []) := by
  constructor
  · intro lenv cenv lst cst url dataType modelName modelType response
      hfetch hstatus hmc
    unfold extract_data
    rw [hfetch]
    simp [hstatus, hmc]
  · intro text hshort
    unfold lkMeaningfulContent lkParagraphs
    have hfil : ((pySplitOnNl (lkCleanText text)).filter
        fun p => 30 < (pyStrip p).length) = [] := by
      rw [List.filter_eq_nil_iff]
      intro p hp
      have := hshort p hp
      simp only [decide_eq_true_eq]
      omega
    rw [hfil]
    rfl

/-- C5 witness: the all-short page and the long-but-boilerplate page
(every paragraph rejected by the content filter) both instantiate
`lk_empty_meaningful_error`. -/
theorem lk_empty_meaningful_witness :
    extract_data lkEnvShort trivialChatbotEnv LinkedInState.init ChatbotState.init
        "https://example.com" "profile" "llama2" "ollama" =
      ({ error := some "No meaningful content found" },
        LinkedInState.init, ChatbotState.init) ∧
    extract_data lkEnvBoilerplate trivialChatbotEnv LinkedInState.init ChatbotState.init
        "https://example.com" "profile" "llama2" "ollama" =
      ({ error := some "No meaningful content found" },
        LinkedInState.init, ChatbotState.init) ∧
    lkMeaningfulContent "short text" = [] :=
  ⟨lk_empty_meaningful_error.1 lkEnvShort trivialChatbotEnv LinkedInState.init
      ChatbotState.init "https://example.com" "profile" "llama2" "ollama"
      { status_code := 200, text := "short text" } rfl rfl
      (lk_empty_meaningful_error.2 "short text" (by decide)),
    lk_empty_meaningful_error.1 lkEnvBoilerplate trivialChatbotEnv LinkedInState.init
      ChatbotState.init "https://example.com" "profile" "llama2" "ollama"
      { status_code := 200, text := boilerplateText } rfl rfl (by decide),
    lk_empty_meaningful_error.2 "short text" (by decide)⟩

end SocialAnalyzer
